import Mathlib

/-!
Verification of the GSTable spreadsheet ORM layer (src/GSTable.js).

The JavaScript class `GSTable` is shallowly embedded here.  Spreadsheet
cells are modelled by `GSTable.Value`; a column descriptor (the objects
produced by `GSTable.COLUMN()`) by `GSTable.Column`; an entity (an
instance of a subclass of `GSTable`) by `GSTable.Entity`, whose fixed
fields are the six properties set by the base constructor and whose
`extra` list holds the subclass-declared columns in declaration order.
The backing sheet is a header row plus data rows (`GSTable.Sheet`).
Mutation of the sheet and of the entity is modelled by explicit state
passing: each operation returns the new states.  `Math.random` and
`new Date()` are modelled by an explicit environment (`GSTable.Env`).
-/

namespace GSTable

/-- A spreadsheet cell / JavaScript value as used by the engine.
`undef` models the JavaScript `undefined`. -/
inductive Value where
  | str : String → Value
  | num : Int → Value
  | bool : Bool → Value
  | date : Nat → Value
  | undef : Value
deriving DecidableEq, Repr

/-- JavaScript truthiness of the values the engine manipulates:
`""`, `0`, `false` and `undefined` are falsy; Date objects are truthy. -/
def isFalsy : Value → Bool
  | Value.str s => s == ""
  | Value.num n => n == 0
  | Value.bool b => !b
  | Value.date _ => false
  | Value.undef => true

/-- The `value || fallback` idiom used by every column factory. -/
def jsOr (v fallback : Value) : Value :=
  if isFalsy v then fallback else v

/-- A column descriptor: the object `\x7b _value, _type, _required, _class? \x7d`
returned by the factories in `GSTable.COLUMN()`.  Field `cls` is the
optional `_class` carried only by FOREIGNKEY descriptors (modelled as
the name of the referenced record type). -/
structure Column where
  value : Value
  type_ : String
  required : Bool
  cls : Option String
deriving DecidableEq, Repr

/-- `COLUMN().DATE(value, required)`: `_value = value || ""`. -/
def colDATE (v : Value) (req : Bool) : Column :=
  { value := jsOr v (Value.str ""), type_ := "date", required := req, cls := none }

/-- `COLUMN().TIME(value, required)`. -/
def colTIME (v : Value) (req : Bool) : Column :=
  { value := jsOr v (Value.str ""), type_ := "time", required := req, cls := none }

/-- `COLUMN().STRING(value, required)`. -/
def colSTRING (v : Value) (req : Bool) : Column :=
  { value := jsOr v (Value.str ""), type_ := "str", required := req, cls := none }

/-- `COLUMN().NUMBER(value, required)`: `_value = value || 0`. -/
def colNUMBER (v : Value) (req : Bool) : Column :=
  { value := jsOr v (Value.num 0), type_ := "number", required := req, cls := none }

/-- `COLUMN().BOOLEAN(value, required)`: `_value = value || false`. -/
def colBOOLEAN (v : Value) (req : Bool) : Column :=
  { value := jsOr v (Value.bool false), type_ := "bool", required := req, cls := none }

/-- `COLUMN().FOREIGNKEY(value, class_name, required)`. -/
def colFOREIGNKEY (v : Value) (className : String) (req : Bool) : Column :=
  { value := jsOr v (Value.str ""), type_ := "fk", required := req, cls := some className }

/-- The value of one own property of an entity: either a column
descriptor or a plain (non-column) value such as `row_number`.
`GSTable.isColumn` distinguishes the two shapes at runtime. -/
inductive PropVal where
  | col : Column → PropVal
  | plain : Value → PropVal
deriving DecidableEq, Repr

/-- An entity: the six properties installed by the `GSTable` constructor
(in constructor order `id`, `row_number`, `created`, `modified`,
`created_by`, `last_modified_by`) followed by the subclass-declared
columns `extra` in declaration order.  `row_number` is a plain number,
not a column descriptor (the source comments call it "not a column but
an utility parameter"). -/
structure Entity where
  id : Column
  row_number : Nat
  created : Column
  modified : Column
  created_by : Column
  last_modified_by : Column
  extra : List (String × Column)
deriving DecidableEq, Repr

/-- The base `GSTable` constructor with all default arguments:
`new GSTable()` evaluated when `new Date()` is `now`. -/
def blankBase (now : Nat) : Entity :=
  { id := colSTRING (Value.str "") true
    row_number := 0
    created := colDATE (Value.date now) true
    modified := colDATE (Value.date now) true
    created_by := colSTRING (Value.str "") true
    last_modified_by := colSTRING (Value.str "") true
    extra := [] }

/-- `Object.getOwnPropertyNames(entity)` paired with each property
value, in JavaScript insertion order. -/
def ownPropsList (e : Entity) : List (String × PropVal) :=
  ("id", PropVal.col e.id) ::
  ("row_number", PropVal.plain (Value.num (e.row_number : Int))) ::
  ("created", PropVal.col e.created) ::
  ("modified", PropVal.col e.modified) ::
  ("created_by", PropVal.col e.created_by) ::
  ("last_modified_by", PropVal.col e.last_modified_by) ::
  e.extra.map (fun p => (p.1, PropVal.col p.2))

/-- `Object.getOwnPropertyNames(entity)`. -/
def ownPropNames (e : Entity) : List String :=
  (ownPropsList e).map (fun p => p.1)

/-- Property access `entity[name]`; `none` models `undefined`. -/
def getOwnProp (e : Entity) (name : String) : Option PropVal :=
  if name = "id" then some (PropVal.col e.id)
  else if name = "row_number" then some (PropVal.plain (Value.num (e.row_number : Int)))
  else if name = "created" then some (PropVal.col e.created)
  else if name = "modified" then some (PropVal.col e.modified)
  else if name = "created_by" then some (PropVal.col e.created_by)
  else if name = "last_modified_by" then some (PropVal.col e.last_modified_by)
  else (e.extra.lookup name).map PropVal.col

/-- `GSTable.isColumn(x)` on a property value: a `Column` carries
exactly the keys `_value`, `_type`, `_required` the source checks for;
plain values (numbers, `undefined`) have no such keys. -/
def isColumnProp : Option PropVal → Bool
  | some (PropVal.col _) => true
  | _ => false

/-- `class_props` in `getTableInfo`: the own property names of a blank
instance, filtered by `isColumn`. -/
def classPropsOf (e : Entity) : List String :=
  (ownPropNames e).filter (fun n => isColumnProp (getOwnProp e n))

/-- A backing sheet: row 1 is the header row `headers`; `data` are the
data rows (grid rows 2..). -/
structure Sheet where
  headers : List String
  data : List (List Value)
deriving DecidableEq, Repr

/-- `Array.prototype.indexOf`: first index of `a`, or `-1`. -/
def jsIndexOf (l : List String) (a : String) : Int :=
  if a ∈ l then ((l.indexOf a : Nat) : Int) else -1

/-- `sheet.deleteColumn(k)` for a 1-based column index `k`: removes the
header cell and the corresponding cell of every data row.  An
out-of-range index is a no-op here (the live API would throw; the
engine only produces it through the stale-index defect shown below). -/
def deleteColumnPhys (s : Sheet) (oneBased : Int) : Sheet :=
  if 1 ≤ oneBased then
    { headers := s.headers.eraseIdx (oneBased.toNat - 1)
      data := s.data.map (fun r => r.eraseIdx (oneBased.toNat - 1)) }
  else s

/-- `sheet.appendRow(values)` on a sheet that already has its header
row: the values become a new last data row. -/
def appendRowPhys (s : Sheet) (row : List Value) : Sheet :=
  { s with data := s.data ++ [row] }

/-- `sheet.getLastRow()`: the header row plus the data rows. -/
def lastRow (s : Sheet) : Nat :=
  1 + s.data.length

/-- `sheet.getRange(rowIdx, 1, 1, lastColumn).setValues([row])`:
overwrite the data row at 1-based grid row `rowIdx` (row 1 is the
header row; the engine only calls this with `rowIdx ≥ 2`, coming from
`row_number`).  Out-of-range writes are a no-op here. -/
def writeRowPhys (s : Sheet) (rowIdx : Nat) (row : List Value) : Sheet :=
  if 2 ≤ rowIdx then { s with data := s.data.set (rowIdx - 2) row } else s

/-- `getRange(row_number, 1, 1, lastColumn).deleteCells(ROWS)`:
remove the data row at 1-based grid row `rowIdx`, shifting later rows
up. -/
def deleteRowPhys (s : Sheet) (rowIdx : Nat) : Sheet :=
  if 2 ≤ rowIdx then { s with data := s.data.eraseIdx (rowIdx - 2) } else s

/-- `GSTable.getTableInfo()`.  `classProps` is the `class_props` list of
the record type, `sheet?` the sheet currently registered under the
type's name (`none` when absent).  Returns the sheet state after
synchronization and the returned `headers` array.  Mirrors the source:
the local `headers` is read once; `new_props` are physically appended;
each column to delete is removed at `headers.indexOf(column) + 1`
computed against that original snapshot; the final statement
`headers.concat(new_props)` discards its result, so the returned list
is the pre-synchronization snapshot. -/
def getTableInfo (classProps : List String) (sheet? : Option Sheet) : Sheet × List String :=
  match sheet? with
  | none => ({ headers := classProps, data := [] }, classProps)
  | some sheet0 =>
    let headers := sheet0.headers
    let newProps := classProps.filter (fun n => decide (n ∉ headers))
    let sheet1 :=
      if newProps.length > 0 then { sheet0 with headers := sheet0.headers ++ newProps }
      else sheet0
    let columnsToDelete := headers.filter (fun n => decide (n ∉ classProps))
    let sheet2 := columnsToDelete.foldl
      (fun s column => deleteColumnPhys s (jsIndexOf headers column + 1)) sheet1
    (sheet2, headers)

/-- The alphabet of `generateId`. -/
def characters : List Char :=
  "ABCDEFGHIJKLMNOPQRSTUVWXYZabcdefghijklmnopqrstuvwxyz0123456789".toList

/-- The character-building loop of `generateId`: character `i` is
`characters.charAt(Math.floor(Math.random() * charactersLength))`,
with the random draws modelled by `rand : Nat → Fin 62`. -/
def genChars (len : Nat) (rand : Nat → Fin 62) : String :=
  String.mk ((List.range len).map (fun i => characters.getD (rand i).val 'A'))

/-- `GSTable.generateId(length)`: throws when `length <= 0`, otherwise
builds the random string. -/
def generateId (length : Int) (rand : Nat → Fin 62) : Except String String :=
  if length ≤ 0 then Except.error "Length must be greater than 0"
  else Except.ok (genChars length.toNat rand)

/-- String coercion of a header cell used as an object key. -/
def valueKey : Value → String
  | Value.str s => s
  | Value.num n => toString n
  | Value.bool b => if b then "true" else "false"
  | Value.date _ => "Date"
  | Value.undef => "undefined"

/-- `headers[index]` used as a key: an out-of-range access yields
`undefined`, which JavaScript coerces to the key "undefined". -/
def keyAt (headersRow : List Value) (idx : Nat) : String :=
  match headersRow.get? idx with
  | some v => valueKey v
  | none => "undefined"

/-- JavaScript keyed assignment `obj[k] = v` on an object represented
by its entries in insertion order: an existing key (there is at most
one occurrence, since objects are only built through this operation)
is overwritten in place, a fresh key is appended. -/
def jsSetKey (obj : List (String × Value)) (k : String) (v : Value) : List (String × Value) :=
  if k ∈ obj.map (fun p => p.1) then
    obj.map (fun p => if p.1 = k then (p.1, v) else p)
  else obj ++ [(k, v)]

/-- `GSTable.fromRawDataToArrayOfObject(rawData)`.  The source mutates
its argument (`rawData.shift()` removes the header row in place); the
first component is the argument's final state, the second the returned
records.  Each record is the JavaScript object built as
`var data = \x7b row_number: row_id + 2 \x7d` followed by
`data[headers[index]] = cell` for every cell of the row: a header cell
reading as the key `row_number` therefore overwrites the synthetic row
number, and a later duplicate header key overwrites an earlier
assignment. -/
def fromRawDataToArrayOfObject (rawData : List (List Value)) :
    List (List Value) × List (List (String × Value)) :=
  match rawData with
  | [] => ([], [])
  | headersRow :: rest =>
    (rest, rest.enum.map (fun p =>
      p.2.enum.foldl (fun data q => jsSetKey data (keyAt headersRow q.1) q.2)
        [("row_number", Value.num (Int.ofNat (p.1 + 2)))]))

/-- The keys under which the cells of one data row are assigned
(`headers[index]` coerced to a key, for each cell index of the row). -/
def rowKeys (headersRow : List Value) (row : List Value) : List String :=
  row.enum.map (fun q => keyAt headersRow q.1)

/-- `sheet.getDataRange().getValues()`: the header row followed by the
data rows. -/
def getValuesAll (s : Sheet) : List (List Value) :=
  (s.headers.map Value.str) :: s.data

/-- `rawObject[property]`; an absent key is `undefined`.  Objects built
through `jsSetKey` keep at most one entry per key, so the first-match
`lookup` is exactly the JavaScript property read. -/
def rawField (raw : List (String × Value)) (n : String) : Value :=
  (raw.lookup n).getD Value.undef

/-- `this.row_number = rawObject["row_number"]` read back as the
numeric row position of the entity.  Records built by
`fromRawDataToArrayOfObject` hold `num (i + 2)` under this key unless a
header cell itself reads as the key `row_number`; in that pathological
case the JavaScript entity carries the overwriting cell, which this
numeric projection clamps to 0. -/
def rowNumberValue : Value → Nat
  | Value.num n => n.toNat
  | _ => 0

/-- `GSTable.fromJson(rawObject)`: a blank instance whose column
properties receive `rawObject[property]` into `_value` and whose
non-column properties (here `row_number`) receive the raw value
directly. -/
def fromJson (blank : Entity) (raw : List (String × Value)) : Entity :=
  { id := { blank.id with value := rawField raw "id" }
    row_number := rowNumberValue (rawField raw "row_number")
    created := { blank.created with value := rawField raw "created" }
    modified := { blank.modified with value := rawField raw "modified" }
    created_by := { blank.created_by with value := rawField raw "created_by" }
    last_modified_by := { blank.last_modified_by with value := rawField raw "last_modified_by" }
    extra := blank.extra.map (fun p => (p.1, { p.2 with value := rawField raw p.1 })) }

/-- `GSTable.findAll()`: resolve the table, read the full grid, convert
to records, hydrate each record. -/
def findAll (blank : Entity) (sheet? : Option Sheet) : List Entity :=
  let ti := getTableInfo (classPropsOf blank) sheet?
  let raws := (fromRawDataToArrayOfObject (getValuesAll ti.1)).2
  raws.map (fromJson blank)

/-- `GSTable.findById(id)`: first entity whose `id._value === id`;
`none` models the not-found result. -/
def findById (blank : Entity) (sheet? : Option Sheet) (idv : Value) : Option Entity :=
  (findAll blank sheet?).find? (fun ent => decide (ent.id.value = idv))

/-- One value of the `conditions` object of `filterByConsitions`:
either a predicate function or a non-function value. -/
inductive CondVal where
  | fn : (Option PropVal → Bool) → CondVal
  | nonfn : Value → CondVal

/-- `typeof conditions[key] === 'function'`. -/
def isFnCond : CondVal → Bool
  | CondVal.fn _ => true
  | CondVal.nonfn _ => false

/-- `GSTable.filterByConsitions(conditions)` (sic): an empty conditions
object short-circuits to `[]`; otherwise every key must either hold a
non-function (vacuously true) or a predicate returning truthy on
`entity[key]`. -/
def filterByConsitions (conditions : List (String × CondVal))
    (blank : Entity) (sheet? : Option Sheet) : List Entity :=
  if conditions.length = 0 then []
  else (findAll blank sheet?).filter (fun ent =>
    conditions.all (fun kc =>
      match kc.2 with
      | CondVal.nonfn _ => true
      | CondVal.fn p => p (getOwnProp ent kc.1)))

/-- `expand()`: for every own property that is a column descriptor
carrying `_class`, the derived property `prop + "_"` receives
`_class.findById(prop._value)`.  `resolveEnv` maps a referenced class
name to its blank instance and backing sheet. -/
def expand (e : Entity) (resolveEnv : String → Entity × Option Sheet) :
    List (String × Option Entity) :=
  (ownPropsList e).filterMap (fun p =>
    match p.2 with
    | PropVal.col c =>
      match c.cls with
      | some cn => some (p.1 ++ "_", findById (resolveEnv cn).1 (resolveEnv cn).2 c.value)
      | none => none
    | PropVal.plain _ => none)

/-- Execution environment of a `persist`/`remove` call: the current
time (`new Date()`), the active user (`Session.getActiveUser()`, `none`
modelling `null`) and the random stream behind `Math.random`. -/
structure Env where
  now : Nat
  activeUser : Option String
  rand : Nat → Fin 62

/-- The stamping prologue of `persist`:
`this.modified._value = new Date()` and, when an active user exists,
`this.last_modified_by._value = active_user.getEmail()`. -/
def stampE (env : Env) (e : Entity) : Entity :=
  let e1 := { e with modified := { e.modified with value := Value.date env.now } }
  match env.activeUser with
  | some mail => { e1 with last_modified_by := { e1.last_modified_by with value := Value.str mail } }
  | none => e1

/-- `getUpdateArray()` given the headers returned by its own
`getTableInfo` call: push `_value` for every header that is a column
property of the entity. -/
def buildUpdateArray (e : Entity) (headers : List String) : List Value :=
  headers.filterMap (fun h =>
    match getOwnProp e h with
    | some (PropVal.col c) => some c.value
    | _ => none)

/-- `typeof element === "undefined" || element === ""` on a present
cell: only `undefined` and the empty string count as missing. -/
def isMissingValue : Value → Bool
  | Value.undef => true
  | Value.str s => s == ""
  | _ => false

/-- The same test on `updateArray[i]`, where reading past the end of
the array yields `undefined`. -/
def missingCell : Option Value → Bool
  | none => true
  | some v => isMissingValue v

/-- `this[header]._required` as a boolean: `false` for non-column
properties (whose `._required` is `undefined`, hence falsy).  A header
that is no property at all cannot occur for a synchronized sheet. -/
def requiredOf (e : Entity) (header : String) : Bool :=
  match getOwnProp e header with
  | some (PropVal.col c) => c.required
  | _ => false

/-- `checkRequired(headers, updateArray)`: walk the header positions in
order; position `i` pairs `headers[i]` with `updateArray[i]` (the tail
recursion shifts both lists together), and a required column with a
missing cell is recorded. -/
def checkRequired (e : Entity) : List String → List Value → List String
  | [], _ => []
  | header :: hs, ua =>
    (if requiredOf e header && missingCell ua.head? then [header] else [])
      ++ checkRequired e hs ua.tail

/-- `array[pos] = v` for `pos ≥ 0`: JavaScript widens the array with
holes (`undefined`) when writing past the end. -/
def jsArraySet (l : List Value) (pos : Nat) (v : Value) : List Value :=
  if pos < l.length then l.set pos v
  else l ++ List.replicate (pos - l.length) Value.undef ++ [v]

/-- `array[pos] = v` where `pos` may be the `-1` of a failed
`indexOf`: a negative index touches no element. -/
def jsArraySetAt (l : List Value) (pos : Int) (v : Value) : List Value :=
  if pos < 0 then l else jsArraySet l pos.toNat v

/-- The `newEntityProps` loop of the create path: for `id`, `created`,
`created_by` (the `Object.keys` order), write the new value both at
`headers.indexOf(prop)` in the update array and into the entity
property.  `created` and `created_by` take the already-stamped
`modified`/`last_modified_by` values. -/
def createPatch (env : Env) (headers : List String) (e2 : Entity) (ua : List Value) :
    Entity × List Value :=
  let idStr := Value.str ((generateId 8 env.rand).toOption.getD "")
  let createdV := e2.modified.value
  let createdByV := e2.last_modified_by.value
  let ua1 := jsArraySetAt ua (jsIndexOf headers "id") idStr
  let e3 := { e2 with id := { e2.id with value := idStr } }
  let ua2 := jsArraySetAt ua1 (jsIndexOf headers "created") createdV
  let e4 := { e3 with created := { e3.created with value := createdV } }
  let ua3 := jsArraySetAt ua2 (jsIndexOf headers "created_by") createdByV
  let e5 := { e4 with created_by := { e4.created_by with value := createdByV } }
  (e5, ua3)

/-- The entity/row pair that `persist` validates: on the create path
(`id._value === ""`) the patched pair, otherwise the stamped entity
with the plain update array. -/
def preparedOf (env : Env) (headers : List String) (e2 : Entity) (ua : List Value) :
    Entity × List Value :=
  if e2.id.value = Value.str "" then createPatch env headers e2 ua
  else (e2, ua)

/-- `persist()`.  Returns the outcome (a thrown validation error
carries the `wrongs` list), the entity's final in-memory state and the
sheet's final state.  The source resolves the table twice: once
directly and once inside `getUpdateArray`; both are reproduced.  Note
the dispatch: create when `id._value === ""`, update when
`row_number > 0`, otherwise nothing is written. -/
def persist (env : Env) (classProps : List String) (e : Entity) (sheet? : Option Sheet) :
    Except (List String) Unit × Entity × Sheet :=
  let ti1 := getTableInfo classProps sheet?
  let headers := ti1.2
  let e2 := stampE env e
  let ti2 := getTableInfo classProps (some ti1.1)
  let sheet2 := ti2.1
  let ua := buildUpdateArray e2 ti2.2
  let p := preparedOf env headers e2 ua
  let wrongs := checkRequired p.1 headers p.2
  if e2.id.value = Value.str "" then
    if wrongs.length > 0 then (Except.error wrongs, p.1, sheet2)
    else
      let sheet3 := appendRowPhys sheet2 p.2
      (Except.ok (), { p.1 with row_number := lastRow sheet3 }, sheet3)
  else if 0 < e2.row_number then
    if wrongs.length > 0 then (Except.error wrongs, p.1, sheet2)
    else (Except.ok (), p.1, writeRowPhys sheet2 e2.row_number p.2)
  else (Except.ok (), e2, sheet2)

/-- `remove()`: an early return when `row_number === 0` (the sheet is
not even resolved); otherwise the backing row is deleted and
`row_number` reset to 0. -/
def removeOp (classProps : List String) (e : Entity) (sheet? : Option Sheet) :
    Entity × Option Sheet :=
  if e.row_number = 0 then (e, sheet?)
  else
    let ti := getTableInfo classProps sheet?
    ({ e with row_number := 0 }, some (deleteRowPhys ti.1 e.row_number))

/-- Decidable equality for `Except`, used to evaluate outcomes of the
engine on concrete inputs. -/
instance {ε α : Type} [DecidableEq ε] [DecidableEq α] : DecidableEq (Except ε α) :=
  fun a b =>
  match a, b with
  | Except.error x, Except.error y =>
    if h : x = y then isTrue (by rw [h])
    else isFalse (fun hc => h (Except.error.injEq .. ▸ hc))
  | Except.ok x, Except.ok y =>
    if h : x = y then isTrue (by rw [h])
    else isFalse (fun hc => h (Except.ok.injEq .. ▸ hc))
  | Except.error _, Except.ok _ => isFalse (fun hc => Except.noConfusion hc)
  | Except.ok _, Except.error _ => isFalse (fun hc => Except.noConfusion hc)

/-- The character class `[A-Za-z0-9]` of the identifier alphabet. -/
def isAlphaNum (c : Char) : Bool :=
  ('A' ≤ c && c ≤ 'Z') || ('a' ≤ c && c ≤ 'z') || ('0' ≤ c && c ≤ '9')

/-! ### Concrete fixtures used by witnesses and counterexamples -/

/-- The five implicit properties that are column descriptors (the sixth,
`row_number`, is a plain number and never a column). -/
def implicitFive : List String :=
  ["id", "created", "modified", "created_by", "last_modified_by"]

/-- All six property names installed by the base constructor. -/
def fixedSixNames : List String :=
  ["id", "row_number", "created", "modified", "created_by", "last_modified_by"]

/-- A concrete random stream. -/
def randA : Nat → Fin 62 :=
  fun i => ⟨i % 62, Nat.mod_lt _ (by decide)⟩

/-- A concrete environment: time 9, active user present. -/
def envA : Env :=
  { now := 9, activeUser := some "u@e", rand := randA }

/-- Subclass blank with one required STRING column `name` (C3 and C5). -/
def entC5 : Entity :=
  { blankBase 0 with extra := [("name", colSTRING (Value.str "") true)] }

/-- Existing sheet whose header row has only the five implicit columns,
so declared column `name` is missing from it (C3). -/
def shC3 : Sheet :=
  { headers := implicitFive, data := [] }

/-- Existing sheet with two junk headers `x`, `y` in front of the five
implicit columns (C2). -/
def shC2 : Sheet :=
  { headers := ["x", "y"] ++ implicitFive, data := [] }

/-- The entity/row pair a `persist` call validates when the sheet `s` is
already synchronized (so both internal `getTableInfo` calls return
`s.headers`): the stamped entity, patched on the create path. -/
def validatedPair (env : Env) (e : Entity) (s : Sheet) : Entity × List Value :=
  preparedOf env s.headers (stampE env e) (buildUpdateArray (stampE env e) s.headers)

/-- The `wrongs` list that `persist` computes on a synchronized sheet. -/
def validationWrongs (env : Env) (e : Entity) (s : Sheet) : List String :=
  checkRequired (validatedPair env e s).1 s.headers (validatedPair env e s).2

/-- Synchronized sheet for the record type of `entC5` (C1). -/
def shC1 : Sheet :=
  { headers := implicitFive ++ ["name"], data := [] }

/-- A removed entity of the `entC5` record type: non-empty `id`,
`row_number = 0`, required column `name` still empty (C1
counterexample). -/
def entC1x : Entity :=
  { blankBase 0 with
    id := colSTRING (Value.str "ABCDEFGH") true
    created_by := colSTRING (Value.str "u@e") true
    last_modified_by := colSTRING (Value.str "u@e") true
    extra := [("name", colSTRING (Value.str "") true)] }

/-- A removed entity with every required column filled (C4). -/
def entC4 : Entity :=
  { blankBase 0 with
    id := colSTRING (Value.str "ABCDEFGH") true
    created_by := colSTRING (Value.str "u@e") true
    last_modified_by := colSTRING (Value.str "u@e") true }

/-- Synchronized base-type sheet with one data row (C4). -/
def shC4 : Sheet :=
  { headers := implicitFive
    data := [[Value.str "OLDROW00", Value.date 1, Value.date 1,
              Value.str "u@e", Value.str "u@e"]] }

/-- Fresh entity with one required column `title` left empty (C9). -/
def entC9 : Entity :=
  { blankBase 2 with extra := [("title", colSTRING (Value.str "") true)] }

/-- Environment for the C9 witness. -/
def envC9 : Env :=
  { now := 4, activeUser := some "w@e", rand := randA }

/-- Synchronized sheet for the record type of `entC9` (C9). -/
def shC9 : Sheet :=
  { headers := implicitFive ++ ["title"], data := [] }

/-- Base-type sheet with one stored entity of id `AAA` (C6, C8). -/
def shC6 : Sheet :=
  { headers := implicitFive
    data := [[Value.str "AAA", Value.date 1, Value.date 1,
              Value.str "bob", Value.str "bob"]] }

/-- A conditions object whose single value is not a function (C6). -/
def condsC6 : List (String × CondVal) :=
  [("age", CondVal.nonfn (Value.num 3))]

/-- A FOREIGNKEY column referencing class `Ref` with value `ZZZ`,
matching no stored entity of `Ref` (C8). -/
def cC8 : Column :=
  colFOREIGNKEY (Value.str "ZZZ") "Ref" true

/-- Entity with the foreign-key column `owner` (C8). -/
def entC8 : Entity :=
  { blankBase 0 with extra := [("owner", cC8)] }

/-- Class resolution for C8: every class name resolves to the base
record type backed by `shC6` (whose only entity has id `AAA`). -/
def resolveC8 : String → Entity × Option Sheet :=
  fun _ => (blankBase 0, some shC6)

/-- A clean header row for the C10 witness: no cell reads as the key
`row_number` and no key is duplicated. -/
def hdC10 : List Value :=
  [Value.str "id", Value.str "name"]

/-- A data row for the C10 witness. -/
def rowC10 : List Value :=
  [Value.str "AAA", Value.str "w"]

end GSTable

namespace GSTable

/-! ### Helper lemmas -/

theorem tail_get? {α : Type} (l : List α) (i : Nat) :
    l.tail.get? i = l.get? (i + 1) := by
  cases l <;> rfl

theorem get?_zero_head? {α : Type} (l : List α) : l.get? 0 = l.head? := by
  cases l <;> rfl

theorem lookup_isSome_of_mem {β : Type} (l : List (String × β)) (n : String)
    (h : n ∈ l.map (fun p => p.1)) : (l.lookup n).isSome = true := by
  induction l with
  | nil => simp at h
  | cons p tl ih =>
    by_cases he : n = p.1
    · subst he; simp [List.lookup]
    · have h2 : n ∈ tl.map (fun q => q.1) := by
        simp only [List.map_cons, List.mem_cons] at h
        exact h.resolve_left he
      have hb : (n == p.1) = false := beq_eq_false_iff_ne.mpr he
      simpa [List.lookup, hb] using ih h2

/-- Membership characterisation of `checkRequired`: a header name is
reported iff at some header position the column is required and the
update-array cell there is undefined or the empty string. -/
theorem checkRequired_mem (e : Entity) (headers : List String) (ua : List Value) (h : String) :
    h ∈ checkRequired e headers ua ↔
      ∃ i, headers.get? i = some h ∧ requiredOf e h = true
        ∧ missingCell (ua.get? i) = true := by
  induction headers generalizing ua with
  | nil =>
    simp [checkRequired]
  | cons hd tl ih =>
    simp only [checkRequired, List.mem_append]
    constructor
    · rintro (h1 | h2)
      · by_cases hc : (requiredOf e hd && missingCell ua.head?) = true
        · rw [if_pos hc] at h1
          simp only [List.mem_singleton] at h1
          subst h1
          rw [Bool.and_eq_true] at hc
          rcases hc with ⟨hr, hm⟩
          refine ⟨0, rfl, hr, ?_⟩
          rw [get?_zero_head?]
          exact hm
        · rw [if_neg hc] at h1
          simp at h1
      · rcases (ih ua.tail).mp h2 with ⟨i, hi, hr, hm⟩
        refine ⟨i + 1, by simpa using hi, hr, ?_⟩
        rw [← tail_get?]
        exact hm
    · rintro ⟨i, hi, hr, hm⟩
      cases i with
      | zero =>
        left
        have hd_eq : hd = h := by simpa using hi
        subst hd_eq
        rw [get?_zero_head?] at hm
        rw [if_pos (by rw [Bool.and_eq_true]; exact ⟨hr, hm⟩)]
        simp
      | succ i =>
        right
        refine (ih ua.tail).mpr ⟨i, by simpa using hi, hr, ?_⟩
        rw [tail_get?]
        exact hm

/-- When the sheet's header row already equals `class_props`,
`getTableInfo` changes nothing and returns the sheet's headers. -/
theorem getTableInfo_sync (classProps : List String) (s : Sheet)
    (h : s.headers = classProps) :
    getTableInfo classProps (some s) = (s, s.headers) := by
  subst h
  have h1 : (s.headers.filter fun n => !decide (n ∈ s.headers)) = [] := by
    apply List.filter_eq_nil_iff.mpr
    intro a ha
    simp [ha]
  simp [getTableInfo, h1]

/-- The filtered `class_props` of an entity whose declared columns avoid
the six reserved names: the five implicit column properties followed by
the declared columns in declaration order; `row_number` is filtered out
by `isColumn`. -/
theorem classPropsOf_eq (e : Entity)
    (hdisj : ∀ p ∈ e.extra, p.1 ∉ fixedSixNames) :
    classPropsOf e = implicitFive ++ e.extra.map (fun p => p.1) := by
  have hx : ∀ n ∈ e.extra.map (fun p => p.1),
      isColumnProp (getOwnProp e n) = true := by
    intro n hn
    have hnot : n ∉ fixedSixNames := by
      rcases List.mem_map.mp hn with ⟨p, hp, rfl⟩
      exact hdisj p hp
    simp only [fixedSixNames, List.mem_cons, List.not_mem_nil, or_false, not_or] at hnot
    rcases hnot with ⟨n1, n2, n3, n4, n5, n6⟩
    rcases Option.isSome_iff_exists.mp (lookup_isSome_of_mem e.extra n hn) with ⟨c, hc⟩
    simp [getOwnProp, n1, n2, n3, n4, n5, n6, hc, isColumnProp]
  have hnames : ownPropNames e = fixedSixNames ++ e.extra.map (fun p => p.1) := by
    simp [ownPropNames, ownPropsList, fixedSixNames]
  have hfix : fixedSixNames.filter (fun n => isColumnProp (getOwnProp e n))
      = implicitFive := rfl
  unfold classPropsOf
  rw [hnames, List.filter_append, hfix, List.filter_eq_self.mpr hx]

/-! ### Claim theorems -/

/-- C2: evaluation of schema synchronization at a table whose header row
holds the two junk names `x`, `y` in front of the declared columns.  The
deletion loop uses indices precomputed against the original header
snapshot and deletes left to right, so after deleting `x` the stale
index for `y` removes the declared column `id` instead: the junk header
`y` survives and the declared column `id` is destroyed, contradicting
the claimed shift-aware deletion. -/
theorem getTableInfo_delete_shift_bug :
    (getTableInfo (classPropsOf (blankBase 0)) (some shC2)).1.headers
      = ["y", "created", "modified", "created_by", "last_modified_by"]
    ∧ "y" ∈ (getTableInfo (classPropsOf (blankBase 0)) (some shC2)).1.headers
    ∧ "id" ∉ (getTableInfo (classPropsOf (blankBase 0)) (some shC2)).1.headers := by
  decide

/-- C3: evaluation of schema synchronization at a table missing the
declared column `name`.  The sheet's header row is extended with `name`,
but the returned headers list is the stale pre-synchronization snapshot
(the source discards the result of `headers.concat(new_props)`), so the
returned list is not the final header order of the backing table. -/
theorem getTableInfo_stale_headers :
    (getTableInfo (classPropsOf entC5) (some shC3)).1.headers
      = implicitFive ++ ["name"]
    ∧ (getTableInfo (classPropsOf entC5) (some shC3)).2 = implicitFive
    ∧ (getTableInfo (classPropsOf entC5) (some shC3)).2
        ≠ (getTableInfo (classPropsOf entC5) (some shC3)).1.headers := by
  decide

/-- C5 counterexample: at the base record type, the seeded header row of
a freshly created table is the five column properties only; it does not
contain `row_number`, so the claimed six implicit columns (including
rowNumber) are not all seeded. -/
theorem getTableInfo_create_no_rowNumber :
    (getTableInfo (classPropsOf (blankBase 0)) none).2 = implicitFive
    ∧ "row_number" ∉ (getTableInfo (classPropsOf (blankBase 0)) none).2 := by
  decide

/-- C5 (amended): when no backing table exists, schema synchronization
creates one seeded with the declared column names in declaration order,
and this set includes the five implicit column properties `id`,
`created`, `modified`, `created_by`, `last_modified_by`; `row_number`
is a plain utility field, not a column, and is not seeded. -/
theorem getTableInfo_create_seeds (e : Entity)
    (hdisj : ∀ p ∈ e.extra, p.1 ∉ fixedSixNames) :
    getTableInfo (classPropsOf e) none
      = ({ headers := implicitFive ++ e.extra.map (fun p => p.1), data := [] },
         implicitFive ++ e.extra.map (fun p => p.1))
    ∧ "row_number" ∉ classPropsOf e := by
  have hcp := classPropsOf_eq e hdisj
  constructor
  · rw [getTableInfo, hcp]
  · rw [hcp]
    simp only [List.mem_append, List.mem_map, not_or]
    constructor
    · decide
    · rintro ⟨p, hp, hrn⟩
      have := hdisj p hp
      rw [hrn] at this
      exact this (by decide)

/-- C5 witness: the amended statement instantiated at a record type with
one declared column `name`. -/
theorem getTableInfo_create_seeds_witness :
    getTableInfo (classPropsOf entC5) none
      = ({ headers := implicitFive ++ entC5.extra.map (fun p => p.1), data := [] },
         implicitFive ++ entC5.extra.map (fun p => p.1))
    ∧ "row_number" ∉ classPropsOf entC5 :=
  getTableInfo_create_seeds entC5 (by decide)

/-- Every character of the generator alphabet is alphanumeric. -/
theorem characters_alnum : ∀ (j : Fin 62), isAlphaNum (characters.getD j.val 'A') = true := by
  decide

theorem genChars_length (len : Nat) (rand : Nat → Fin 62) :
    (genChars len rand).length = len := by
  simp [genChars, String.length]

/-- C7: `generateId(n)` raises the configuration error for every
`n ≤ 0`, and for every `n > 0` returns a string of length exactly `n`
whose characters all lie in `[A-Za-z0-9]`. -/
theorem generateId_spec (length : Int) (rand : Nat → Fin 62) :
    (length ≤ 0 ∧ generateId length rand = Except.error "Length must be greater than 0")
    ∨ (0 < length ∧ ∃ s, generateId length rand = Except.ok s
        ∧ s.length = length.toNat
        ∧ ∀ c ∈ s.toList, isAlphaNum c = true) := by
  by_cases hl : length ≤ 0
  · left
    exact ⟨hl, by simp [generateId, hl]⟩
  · right
    refine ⟨lt_of_not_le hl, genChars length.toNat rand, by simp [generateId, hl], genChars_length _ _, ?_⟩
    intro c hc
    have hc2 : c ∈ (List.range length.toNat).map
        (fun i => characters.getD (rand i).val 'A') := by
      simpa [genChars] using hc
    rcases List.mem_map.mp hc2 with ⟨i, _, rfl⟩
    exact characters_alnum (rand i)

/-- C7 witness: the error branch instantiated at n = 0 and the concrete
random stream `randA`. -/
theorem generateId_spec_witness :
    generateId 0 randA = Except.error "Length must be greater than 0" :=
  ((generateId_spec 0 randA).resolve_right (fun hc => absurd hc.1 (by decide))).2

/-- A sequence of keyed assignments whose keys are pairwise distinct
and all fresh for the receiving object only appends: no assignment
overwrites another. -/
theorem assign_fold_fresh (hd0 : List Value) (l : List (Nat × Value)) :
    ∀ (init : List (String × Value)),
      (∀ k ∈ l.map (fun q => keyAt hd0 q.1), k ∉ init.map (fun p => p.1)) →
      (l.map (fun q => keyAt hd0 q.1)).Nodup →
      l.foldl (fun data q => jsSetKey data (keyAt hd0 q.1) q.2) init
        = init ++ l.map (fun q => (keyAt hd0 q.1, q.2)) := by
  induction l with
  | nil =>
    intro init _ _
    simp
  | cons q tl ih =>
    intro init hdisj hnd
    simp only [List.map_cons, List.nodup_cons] at hnd
    have hfresh : keyAt hd0 q.1 ∉ init.map (fun p => p.1) :=
      hdisj (keyAt hd0 q.1) (by simp)
    have h1 : jsSetKey init (keyAt hd0 q.1) q.2 = init ++ [(keyAt hd0 q.1, q.2)] := by
      unfold jsSetKey
      rw [if_neg hfresh]
    have h2 : ∀ k ∈ tl.map (fun p => keyAt hd0 p.1),
        k ∉ (init ++ [(keyAt hd0 q.1, q.2)]).map (fun p => p.1) := by
      intro k hk
      simp only [List.map_append, List.mem_append, List.map_cons, List.map_nil,
        List.mem_singleton, not_or]
      refine ⟨hdisj k (by simp [hk]), ?_⟩
      intro hkq
      rw [hkq] at hk
      exact hnd.1 hk
    rw [List.foldl_cons, h1, ih (init ++ [(keyAt hd0 q.1, q.2)]) h2 hnd.2,
      List.append_assoc, List.singleton_append, List.map_cons]

/-- C10 counterexample: a grid whose single header cell is the string
`row_number`.  The keyed assignment `data[headers[index]] = cell`
overwrites the synthetic row number, so the returned record carries the
cell `foo` as its `row_number`, not 2 (while the in-place removal of
the header row still happens). -/
theorem fromRawDataToArrayOfObject_rowNumber_clobbered :
    (fromRawDataToArrayOfObject [[Value.str "row_number"], [Value.str "foo"]]).2
      = [[("row_number", Value.str "foo")]]
    ∧ (fromRawDataToArrayOfObject [[Value.str "row_number"], [Value.str "foo"]]).1
      = [[Value.str "foo"]] := by
  decide

/-- C10 (amended): `fromRawDataToArrayOfObject` removes the header row
from the caller's array in place (the final array state is the tail of
the input, for every grid), and the returned records are the
JavaScript objects built from the remaining rows by keyed assignment
over the header names: provided no cell of a row is assigned under the
key `row_number` and its keys are not duplicated, record `i` is the
synthetic `row_number = i + 2` entry followed by the row's cells keyed
by header position (a header cell `row_number` instead overwrites the
synthetic value, later duplicate keys overwriting earlier ones). -/
theorem fromRawDataToArrayOfObject_spec (rawData : List (List Value)) :
    (fromRawDataToArrayOfObject rawData).1 = rawData.tail
    ∧ ∀ hd, rawData.head? = some hd →
        ∀ i row, rawData.tail.get? i = some row →
          "row_number" ∉ rowKeys hd row →
          (rowKeys hd row).Nodup →
          (fromRawDataToArrayOfObject rawData).2.get? i
              = some (("row_number", Value.num (Int.ofNat (i + 2)))
                  :: row.enum.map (fun q => (keyAt hd q.1, q.2)))
          ∧ ∀ rec, (fromRawDataToArrayOfObject rawData).2.get? i = some rec →
              rec.lookup "row_number" = some (Value.num (Int.ofNat (i + 2))) := by
  cases rawData with
  | nil =>
    refine ⟨rfl, ?_⟩
    intro hd hhd
    simp at hhd
  | cons hd0 rest =>
    refine ⟨rfl, ?_⟩
    intro hd hhd i row hrow hclean hnd
    have hhd2 : hd0 = hd := by simpa using hhd
    subst hhd2
    simp only [List.tail_cons] at hrow
    have hget : (fromRawDataToArrayOfObject (hd0 :: rest)).2.get? i
        = some (row.enum.foldl (fun data q => jsSetKey data (keyAt hd0 q.1) q.2)
            [("row_number", Value.num (Int.ofNat (i + 2)))]) := by
      show (rest.enum.map _).get? i = _
      rw [List.get?_map, List.get?_enum, hrow]
      rfl
    have hdisj : ∀ k ∈ row.enum.map (fun q => keyAt hd0 q.1),
        k ∉ ([("row_number", Value.num (Int.ofNat (i + 2)))].map
          (fun p : String × Value => p.1)) := by
      intro k hk
      simp only [List.map_cons, List.map_nil, List.mem_singleton]
      intro hkr
      rw [hkr] at hk
      exact hclean hk
    have hfold := assign_fold_fresh hd0 row.enum
      [("row_number", Value.num (Int.ofNat (i + 2)))] hdisj hnd
    have hrec : (fromRawDataToArrayOfObject (hd0 :: rest)).2.get? i
        = some (("row_number", Value.num (Int.ofNat (i + 2)))
            :: row.enum.map (fun q => (keyAt hd0 q.1, q.2))) := by
      rw [hget, hfold]
      rfl
    refine ⟨hrec, ?_⟩
    intro rec hrec2
    have h3 : rec = ("row_number", Value.num (Int.ofNat (i + 2)))
        :: row.enum.map (fun q => (keyAt hd0 q.1, q.2)) := by
      rw [hrec2] at hrec
      exact Option.some.inj hrec
    rw [h3]
    simp [List.lookup]

/-- C10 witness: the amended record shape evaluated at a clean concrete
grid (headers `id`, `name`, one data row). -/
theorem fromRawDataToArrayOfObject_spec_witness :
    (fromRawDataToArrayOfObject [hdC10, rowC10]).2.get? 0
      = some [("row_number", Value.num 2),
              ("id", Value.str "AAA"), ("name", Value.str "w")] := by
  have h := ((fromRawDataToArrayOfObject_spec [hdC10, rowC10]).2 hdC10 rfl 0 rowC10 rfl
    (by decide) (by decide)).1
  rw [h]
  decide

/-! ### Persistence: stamping lemmas and the rejection equality -/

theorem stampE_id (env : Env) (e : Entity) : (stampE env e).id = e.id := by
  rcases env with ⟨n, au, r⟩
  cases au <;> rfl

theorem stampE_row_number (env : Env) (e : Entity) :
    (stampE env e).row_number = e.row_number := by
  rcases env with ⟨n, au, r⟩
  cases au <;> rfl

theorem stampE_modified (env : Env) (e : Entity) :
    (stampE env e).modified.value = Value.date env.now := by
  rcases env with ⟨n, au, r⟩
  cases au <;> rfl

/-- On a synchronized sheet, a `persist` whose validated row fails the
required check (on the create or the update path) throws the `wrongs`
list, leaves the entity at its validated state and touches no row of
the sheet. -/
theorem persist_reject_eq (env : Env) (classProps : List String)
    (e : Entity) (sheet0 : Sheet)
    (hsync : sheet0.headers = classProps)
    (hpath : (stampE env e).id.value = Value.str "" ∨ 0 < (stampE env e).row_number)
    (hw : validationWrongs env e sheet0 ≠ []) :
    persist env classProps e (some sheet0)
      = (Except.error (validationWrongs env e sheet0),
         (validatedPair env e sheet0).1, sheet0) := by
  have hti := getTableInfo_sync classProps sheet0 hsync
  have hlen : 0 < (validationWrongs env e sheet0).length := List.length_pos.mpr hw
  unfold validationWrongs validatedPair at hlen ⊢
  simp only [persist, hti]
  by_cases hid : (stampE env e).id.value = Value.str ""
  · rw [if_pos hid]
    rw [if_pos hlen]
  · have hrn : 0 < (stampE env e).row_number := hpath.resolve_left hid
    rw [if_neg hid, if_pos hrn]
    rw [if_pos hlen]

/-- C1 counterexample: an entity whose prepared row has the required
column `name` empty, but whose `id` is non-empty while `row_number` is
0.  `persist` raises no validation error at all (it silently skips both
the create and the update branch), refuting the claim for such
entities; the sheet is still untouched. -/
theorem persist_detached_missing_silent :
    checkRequired (stampE envA entC1x) shC1.headers
        (buildUpdateArray (stampE envA entC1x) shC1.headers) = ["name"]
    ∧ (persist envA (classPropsOf entC1x) entC1x (some shC1)).1 = Except.ok ()
    ∧ (persist envA (classPropsOf entC1x) entC1x (some shC1)).2.2 = shC1 := by
  decide

/-- C1 (amended): for every entity on the create path (`id` empty) or
the update path (`row_number > 0`) against a synchronized sheet, if the
validated row has one or more required columns holding undefined or the
empty string at their header positions, `persist` raises a single
validation error naming exactly the set of all such header names, and
no row is appended to or overwritten in the backing store (the sheet is
returned unchanged).  A detached entity (non-empty `id`,
`row_number = 0`) is silently skipped instead. -/
theorem persist_missing_required_exact (env : Env) (classProps : List String)
    (e : Entity) (sheet0 : Sheet)
    (hsync : sheet0.headers = classProps)
    (hpath : e.id.value = Value.str "" ∨ 0 < e.row_number)
    (hw : validationWrongs env e sheet0 ≠ []) :
    persist env classProps e (some sheet0)
      = (Except.error (validationWrongs env e sheet0),
         (validatedPair env e sheet0).1, sheet0)
    ∧ ∀ h, h ∈ validationWrongs env e sheet0 ↔
        ∃ i, sheet0.headers.get? i = some h
          ∧ requiredOf (validatedPair env e sheet0).1 h = true
          ∧ missingCell ((validatedPair env e sheet0).2.get? i) = true := by
  have hpath2 : (stampE env e).id.value = Value.str ""
      ∨ 0 < (stampE env e).row_number := by
    rcases hpath with h1 | h2
    · exact Or.inl (by rw [stampE_id]; exact h1)
    · exact Or.inr (by rw [stampE_row_number]; exact h2)
  refine ⟨persist_reject_eq env classProps e sheet0 hsync hpath2 hw, ?_⟩
  intro h
  exact checkRequired_mem (validatedPair env e sheet0).1 sheet0.headers
    (validatedPair env e sheet0).2 h

/-- C1 witness: the amended statement instantiated on the create path at
an entity whose required column `name` is empty. -/
theorem persist_missing_required_exact_witness :
    persist envA (classPropsOf entC5) entC5 (some shC1)
      = (Except.error (validationWrongs envA entC5 shC1),
         (validatedPair envA entC5 shC1).1, shC1) :=
  (persist_missing_required_exact envA (classPropsOf entC5) entC5 shC1
    (by decide) (Or.inl (by decide)) (by decide)).1

/-- C4 counterexample: re-persisting a removed entity (non-empty `id`,
`row_number = 0`, all required columns filled) appends nothing — the
sheet, including its data rows, is unchanged — and leaves `row_number`
at 0 rather than setting it to a positive row position. -/
theorem persist_after_remove_no_insert :
    (persist envA (classPropsOf entC4) entC4 (some shC4)).2.2 = shC4
    ∧ (persist envA (classPropsOf entC4) entC4 (some shC4)).2.1.row_number = 0
    ∧ (persist envA (classPropsOf entC4) entC4 (some shC4)).1 = Except.ok ()
    ∧ (persist envA (classPropsOf entC4) entC4 (some shC4)).2.1.id = entC4.id := by
  decide

/-- C4 (amended): for an entity previously persisted and then removed
(non-empty `id`, `row_number = 0`), re-calling `persist` on a
synchronized sheet only re-stamps `modified`/`last_modified_by`: it
appends no row, leaves the backing table unchanged, generates no new
identifier (`id` is untouched) and leaves `row_number` at 0, because
the create branch requires an empty `id` and the update branch requires
`row_number > 0`. -/
theorem persist_removed_noop (env : Env) (classProps : List String)
    (e : Entity) (sheet0 : Sheet)
    (hsync : sheet0.headers = classProps)
    (hid : e.id.value ≠ Value.str "")
    (hrn : e.row_number = 0) :
    persist env classProps e (some sheet0) = (Except.ok (), stampE env e, sheet0)
    ∧ (stampE env e).id = e.id
    ∧ (stampE env e).row_number = 0 := by
  have hti := getTableInfo_sync classProps sheet0 hsync
  refine ⟨?_, stampE_id env e, by rw [stampE_row_number]; exact hrn⟩
  have hid2 : ¬ (stampE env e).id.value = Value.str "" := by
    rw [stampE_id]
    exact hid
  have hrn2 : ¬ 0 < (stampE env e).row_number := by
    rw [stampE_row_number, hrn]
    exact lt_irrefl 0
  simp only [persist, hti]
  rw [if_neg hid2, if_neg hrn2]

/-- C4 witness: the amended statement instantiated at a concrete removed
entity and a sheet with one data row. -/
theorem persist_removed_noop_witness :
    persist envA (classPropsOf entC4) entC4 (some shC4)
      = (Except.ok (), stampE envA entC4, shC4)
    ∧ (stampE envA entC4).id = entC4.id
    ∧ (stampE envA entC4).row_number = 0 :=
  persist_removed_noop envA (classPropsOf entC4) entC4 shC4
    (by decide) (by decide) (by decide)

/-- C9: on the create path against a synchronized sheet, a `persist`
rejected by required-field validation still leaves the in-memory entity
mutated: its `id` holds the freshly generated 8-character identifier
and its `created` stamp holds the new `modified` time, while the
backing sheet is returned unwritten. -/
theorem persist_create_rejected_mutates (env : Env) (classProps : List String)
    (e : Entity) (sheet0 : Sheet)
    (hsync : sheet0.headers = classProps)
    (hid : e.id.value = Value.str "")
    (hw : validationWrongs env e sheet0 ≠ []) :
    persist env classProps e (some sheet0)
      = (Except.error (validationWrongs env e sheet0),
         (validatedPair env e sheet0).1, sheet0)
    ∧ (validatedPair env e sheet0).1.id.value = Value.str (genChars 8 env.rand)
    ∧ (genChars 8 env.rand).length = 8
    ∧ (validatedPair env e sheet0).1.created.value = Value.date env.now := by
  have hid2 : (stampE env e).id.value = Value.str "" := by
    rw [stampE_id]
    exact hid
  refine ⟨persist_reject_eq env classProps e sheet0 hsync (Or.inl hid2) hw,
    ?_, genChars_length 8 env.rand, ?_⟩
  · unfold validatedPair preparedOf
    rw [if_pos hid2]
    show (createPatch env sheet0.headers (stampE env e) _).1.id.value = _
    simp [createPatch, generateId, Except.toOption]
  · unfold validatedPair preparedOf
    rw [if_pos hid2]
    show (createPatch env sheet0.headers (stampE env e) _).1.created.value = _
    simp [createPatch, stampE_modified]

/-- C9 witness: a concrete rejected create (required column `title`
empty) showing the generated identifier and timestamp on the returned
entity with the sheet unchanged. -/
theorem persist_create_rejected_mutates_witness :
    persist envC9 (classPropsOf entC9) entC9 (some shC9)
      = (Except.error (validationWrongs envC9 entC9 shC9),
         (validatedPair envC9 entC9 shC9).1, shC9)
    ∧ (validatedPair envC9 entC9 shC9).1.id.value = Value.str (genChars 8 envC9.rand)
    ∧ (genChars 8 envC9.rand).length = 8
    ∧ (validatedPair envC9 entC9 shC9).1.created.value = Value.date envC9.now :=
  persist_create_rejected_mutates envC9 (classPropsOf entC9) entC9 shC9
    (by decide) (by decide) (by decide)

/-- C6: `filterByConsitions` with an empty conditions object returns an
empty result regardless of the data present, and with a non-empty
conditions object whose every value is not a function it returns
exactly the entities of `findAll` (each non-function condition is
vacuously true for every entity). -/
theorem filterByConsitions_spec (blank : Entity) (sheet? : Option Sheet)
    (conditions : List (String × CondVal)) :
    filterByConsitions [] blank sheet? = []
    ∧ (conditions ≠ [] → (∀ kc ∈ conditions, isFnCond kc.2 = false) →
        filterByConsitions conditions blank sheet? = findAll blank sheet?) := by
  constructor
  · rfl
  · intro hne hnf
    unfold filterByConsitions
    rw [if_neg (by simpa using hne)]
    apply List.filter_eq_self.mpr
    intro ent _
    apply List.all_eq_true.mpr
    intro kc hkc
    have hfn := hnf kc hkc
    cases h2 : kc.2 with
    | fn p =>
      rw [h2] at hfn
      simp [isFnCond] at hfn
    | nonfn v =>
      simp [h2]

/-- C6 witness: the empty filter on a table holding one entity, and a
one-key non-function filter returning the full `findAll` result. -/
theorem filterByConsitions_spec_witness :
    filterByConsitions [] (blankBase 0) (some shC6) = []
    ∧ filterByConsitions condsC6 (blankBase 0) (some shC6)
        = findAll (blankBase 0) (some shC6) := by
  refine ⟨(filterByConsitions_spec (blankBase 0) (some shC6) condsC6).1, ?_⟩
  apply (filterByConsitions_spec (blankBase 0) (some shC6) condsC6).2
    (List.cons_ne_nil _ _)
  intro kc hkc
  have h1 := List.mem_singleton.mp hkc
  subst h1
  rfl

/-- C8: when no stored entity of the referenced type has the searched
id, `findById` returns the not-found sentinel `none`, and consequently
`expand` on a FOREIGNKEY column whose value matches no entity sets the
derived resolved-reference property (`prop + "_"`) to that null
sentinel without raising an error. -/
theorem findById_miss_expand_null (e : Entity)
    (resolveEnv : String → Entity × Option Sheet)
    (n : String) (c : Column) (cn : String)
    (hmem : (n, PropVal.col c) ∈ ownPropsList e)
    (hcls : c.cls = some cn)
    (hnone : ∀ x ∈ findAll (resolveEnv cn).1 (resolveEnv cn).2, x.id.value ≠ c.value) :
    findById (resolveEnv cn).1 (resolveEnv cn).2 c.value = none
    ∧ (n ++ "_", (none : Option Entity)) ∈ expand e resolveEnv := by
  have hfind : findById (resolveEnv cn).1 (resolveEnv cn).2 c.value = none := by
    apply List.find?_eq_none.mpr
    intro x hx
    simp [hnone x hx]
  refine ⟨hfind, ?_⟩
  apply List.mem_filterMap.mpr
  refine ⟨(n, PropVal.col c), hmem, ?_⟩
  simp [hcls, hfind]

/-- C8 witness: the foreign-key value `ZZZ` matches no stored entity
(the only one has id `AAA`), so the derived `owner_` property is the
null sentinel. -/
theorem findById_miss_expand_null_witness :
    findById (resolveC8 "Ref").1 (resolveC8 "Ref").2 cC8.value = none
    ∧ ("owner" ++ "_", (none : Option Entity)) ∈ expand entC8 resolveC8 :=
  findById_miss_expand_null entC8 resolveC8 "owner" cC8 "Ref"
    (by decide) (by decide) (by decide)

end GSTable
